import Mathlib

/-!
Verification development for the WeV avatar pipeline.

The definitions below are a shallow embedding of the TypeScript source:
real-number arithmetic of the host language is modelled by `ℝ`, the
per-frame callbacks become pure functions, and the mutable rig handle
becomes explicit state passing on a `Rig` record.

Source files embedded here:
  * `AvatarCanvas.tsx` — render loop (`animate`), `applyBlendShapes`,
    `applyHeadRotation`, `mapToVRMBlendShape`;
  * `useFaceTracking` hook — frame decimation and the `onResults`
    callback of the face mesh (solver boundary, inactive degrade);
  * `useAudioLipSync` hook — `analyzeAudio` (volume to viseme weights);
  * `UIControls.tsx` — the consumer of the audio lip-sync samples.
-/

namespace WeV

/-- A 3-component vector, as used for rotation and position records. -/
structure Vec3 where
  x : ℝ
  y : ℝ
  z : ℝ

/-- The all-zero vector. -/
def Vec3.zero : Vec3 := ⟨0, 0, 0⟩

/-- `FaceTrackingData` record of the source: one tracking sample.
`blendShapes` keeps the insertion order of the object literal, as
`Object.entries` iterates in insertion order. -/
structure FaceTrackingData where
  isActive : Bool
  blendShapes : List (String × ℝ)
  rotation : Vec3
  position : Vec3

/-- `AudioLipSyncData` record of the source. -/
structure AudioLipSyncData where
  volume : ℝ
  visemeA : ℝ
  visemeI : ℝ
  visemeU : ℝ
  visemeE : ℝ
  visemeO : ℝ

/-- Model of the VRM rig handle: the set of expression channels the rig
owns, their current values, whether the expression manager and the
humanoid are present, whether a head bone node exists, and the current
head bone rotation. -/
structure Rig where
  channels : List String
  channelValues : String → ℝ
  hasExpressionManager : Bool
  hasHumanoid : Bool
  hasHead : Bool
  headRotation : Vec3

/-- The static mapping table of `mapToVRMBlendShape` in
`AvatarCanvas.tsx`, in source order. -/
def vrmBlendShapeMapping : List (String × String) :=
  [("eyeBlinkLeft", "blinkLeft"),
   ("eyeBlinkRight", "blinkRight"),
   ("eyeLookUpLeft", "lookUp"),
   ("eyeLookUpRight", "lookUp"),
   ("eyeLookDownLeft", "lookDown"),
   ("eyeLookDownRight", "lookDown"),
   ("eyeLookInLeft", "lookLeft"),
   ("eyeLookInRight", "lookRight"),
   ("eyeLookOutLeft", "lookRight"),
   ("eyeLookOutRight", "lookLeft"),
   ("mouthOpen", "aa"),
   ("mouthSmileLeft", "joy"),
   ("mouthSmileRight", "joy"),
   ("mouthFunnel", "oh"),
   ("mouthPucker", "ou"),
   ("browDownLeft", "angry"),
   ("browDownRight", "angry"),
   ("browUpCenter", "surprised"),
   ("browUpLeft", "surprised"),
   ("browUpRight", "surprised")]

/-- `mapToVRMBlendShape` of `AvatarCanvas.tsx`: `mapping[shapeName] || null`. -/
def mapToVRMBlendShape (shapeName : String) : Option String :=
  vrmBlendShapeMapping.lookup shapeName

/-- `vrm.expressionManager.setValue(name, v)` as observed through the
`try`/`catch` of `applyBlendShapes`: writing to a channel the rig does
not own throws, the exception is swallowed, and the rig is unchanged. -/
def setExpressionValue (vrm : Rig) (name : String) (v : ℝ) : Rig :=
  if name ∈ vrm.channels then
    { vrm with channelValues := fun n => if n = name then v else vrm.channelValues n }
  else vrm

/-- `applyBlendShapes` of `AvatarCanvas.tsx`: early return when the
expression manager is absent, then for each entry map the source name
through the table and, when mapped, write the value clamped by
`Math.max(0, Math.min(1, value))`. -/
noncomputable def applyBlendShapes (vrm : Rig) (blendShapes : List (String × ℝ)) : Rig :=
  if vrm.hasExpressionManager = false then vrm
  else
    blendShapes.foldl (fun acc entry =>
      match mapToVRMBlendShape entry.1 with
      | some vrmName =>
          if acc.hasExpressionManager then
            setExpressionValue acc vrmName (max 0 (min 1 entry.2))
          else acc
      | none => acc) vrm

/-- `THREE.MathUtils.degToRad`. -/
noncomputable def degToRad (degrees : ℝ) : ℝ := degrees * (Real.pi / 180)

/-- `applyHeadRotation` of `AvatarCanvas.tsx`: early return when the
humanoid is absent; when the head bone node exists, each axis is set to
`degToRad(rotation.axis * 0.5)`. -/
noncomputable def applyHeadRotation (vrm : Rig) (rotation : Vec3) : Rig :=
  if vrm.hasHumanoid = false then vrm
  else if vrm.hasHead then
    { vrm with headRotation :=
        ⟨degToRad (rotation.x * 0.5), degToRad (rotation.y * 0.5), degToRad (rotation.z * 0.5)⟩ }
  else vrm

/-- The rig-writing portion of one `animate` tick in `AvatarCanvas.tsx`:
when tracking data is present and active, apply the blend shapes and
then the head rotation; otherwise the rig is untouched. -/
noncomputable def applyTracking (vrm : Rig) (tracking : Option FaceTrackingData) : Rig :=
  match tracking with
  | some d =>
      if d.isActive then applyHeadRotation (applyBlendShapes vrm d.blendShapes) d.rotation
      else vrm
  | none => vrm

/-- A concrete rig owning every channel named by the mapping table, all
values zero, with expression manager, humanoid and head present. -/
noncomputable def sampleRig : Rig :=
  { channels := ["blinkLeft", "blinkRight", "lookUp", "lookDown", "lookLeft", "lookRight",
                 "aa", "joy", "oh", "ou", "angry", "surprised"]
    channelValues := fun _ => 0
    hasExpressionManager := true
    hasHumanoid := true
    hasHead := true
    headRotation := Vec3.zero }

/-! ## Tracking producer: frame decimation and the solver boundary -/

/-- One pass of the decimating `onResults` callback over a list of frame
identifiers, carrying the mutable `frameCountRef`: the counter is
incremented for each frame, and the frame is forwarded to the solver
exactly when the incremented counter is divisible by 3. -/
def decimatorRun (count : ℕ) : List ℕ → List ℕ
  | [] => []
  | f :: rest =>
      if (count + 1) % 3 = 0 then f :: decimatorRun (count + 1) rest
      else decimatorRun (count + 1) rest

/-- Raw solver output of `Face.solve`, already coalesced through the
`|| 0` defaults of the source. -/
structure SolvedFace where
  eyeL : ℝ
  eyeR : ℝ
  pupilX : ℝ
  pupilY : ℝ
  mouthA : ℝ
  mouthI : ℝ
  mouthO : ℝ
  mouthU : ℝ
  brow : ℝ
  headDegrees : Vec3
  headPosition : Vec3

/-- Outcome of one `Face.solve` invocation inside the `try` block:
success with a face record, a falsy return value, or a thrown error. -/
inductive SolveOutcome where
  | success (face : SolvedFace)
  | nullFace
  | failure

/-- The inactive sample emitted by the source on solver failure and on
frames with no detected face. -/
def inactiveSample : FaceTrackingData :=
  { isActive := false
    blendShapes := []
    rotation := Vec3.zero
    position := Vec3.zero }

/-- The active sample built in the `onResults` callback from a solved
face, with the blend-shape entries in source order. -/
noncomputable def trackingDataOf (face : SolvedFace) : FaceTrackingData :=
  { isActive := true
    blendShapes :=
      [("eyeBlinkLeft", face.eyeL),
       ("eyeBlinkRight", face.eyeR),
       ("eyeLookUpLeft", max 0 face.pupilY),
       ("eyeLookUpRight", max 0 face.pupilY),
       ("eyeLookDownLeft", max 0 (-face.pupilY)),
       ("eyeLookDownRight", max 0 (-face.pupilY)),
       ("eyeLookInLeft", max 0 face.pupilX),
       ("eyeLookInRight", max 0 (-face.pupilX)),
       ("eyeLookOutLeft", max 0 (-face.pupilX)),
       ("eyeLookOutRight", max 0 face.pupilX),
       ("mouthOpen", face.mouthA),
       ("mouthSmileLeft", face.mouthI),
       ("mouthSmileRight", face.mouthI),
       ("mouthFunnel", face.mouthO),
       ("mouthPucker", face.mouthU),
       ("browDownLeft", max 0 (-face.brow)),
       ("browDownRight", max 0 (-face.brow)),
       ("browUpCenter", max 0 face.brow),
       ("browUpLeft", max 0 face.brow),
       ("browUpRight", max 0 face.brow)]
    rotation := face.headDegrees
    position := face.headPosition }

/-- Sample emission of one accepted frame in the `onResults` callback:
with landmarks present, a successful solve emits the active sample, a
falsy solver return emits nothing, and a thrown solver error is caught
and emits the inactive sample; without landmarks the inactive sample is
emitted.  The function is total: no outcome propagates an error, and
each invocation emits at most one sample (no retry). -/
noncomputable def onResultsEmit (hasLandmarks : Bool) (outcome : SolveOutcome) :
    Option FaceTrackingData :=
  if hasLandmarks then
    match outcome with
    | .success face => some (trackingDataOf face)
    | .nullFace => none
    | .failure => some inactiveSample
  else some inactiveSample

/-! ## Audio envelope estimator (`analyzeAudio` in `useAudioLipSync`) -/

/-- Mean of the byte frequency data divided by 255, as computed by the
`sum`/`length`/`255` sequence of `analyzeAudio`. -/
def normalizedVolume (data : List ℕ) : ℚ :=
  ((data.sum : ℚ) / data.length) / 255

/-- `Math.pow(volume, 0.7)` of `analyzeAudio`. -/
noncomputable def volumeSmoothed (volume : ℝ) : ℝ := volume ^ (0.7 : ℝ)

/-- The viseme derivation of `analyzeAudio` from the normalized volume:
smoothing by the 0.7 power law, then one fixed threshold/gain pair per
viseme. -/
noncomputable def visemesOfVolume (volume : ℝ) : AudioLipSyncData :=
  let vs := volumeSmoothed volume
  { volume := vs
    visemeA := if vs > 0.1 then vs * 0.8 else 0
    visemeI := if vs > 0.05 then vs * 0.6 else 0
    visemeU := if vs > 0.03 then vs * 0.4 else 0
    visemeE := if vs > 0.07 then vs * 0.5 else 0
    visemeO := if vs > 0.04 then vs * 0.7 else 0 }

/-- Full `analyzeAudio` pipeline from one byte frequency snapshot. -/
noncomputable def analyzeAudio (data : List ℕ) : AudioLipSyncData :=
  visemesOfVolume ((normalizedVolume data : ℚ) : ℝ)

/-- The `onUpdate` consumer of the audio lip-sync samples in
`UIControls.tsx`: the sample is only logged to the console, so the rig
state is returned unchanged. -/
def lipSyncOnUpdate (_data : AudioLipSyncData) (vrm : Rig) : Rig := vrm

/-! ## Render loop clock (`animate` in `AvatarCanvas.tsx`) -/

/-- `THREE.Clock`: `last` is the time of the most recent `getDelta`. -/
structure Clock where
  last : ℝ

/-- `clock.getDelta()` called at time `now`: returns the elapsed time
since the previous `getDelta` call and resets the clock to `now`. -/
def Clock.getDelta (c : Clock) (now : ℝ) : ℝ × Clock :=
  (now - c.last, ⟨now⟩)

/-- `Math.round` of JavaScript: round half towards positive infinity. -/
noncomputable def jsRound (x : ℝ) : ℤ := ⌊x + 1 / 2⌋

/-- Observable result of one `animate` tick. -/
structure RenderTickResult where
  reportedFPS : ℤ
  fpsReportCount : ℕ
  rigAdvanceDelta : ℝ
  rig : Rig
  clock : Clock

/-- One `animate` tick of `AvatarCanvas.tsx`, with `t1` and `t2` the
wall-clock times of the two `getDelta()` calls of that tick: the FPS
callback receives `Math.round(1 / getDelta())` (first call, invoked
once), `deltaTime` for `vrm.update` is taken from a second `getDelta()`
call, and the tracking data is applied to the rig when active. -/
noncomputable def renderTick (c : Clock) (vrm : Rig) (tracking : Option FaceTrackingData)
    (t1 t2 : ℝ) : RenderTickResult :=
  let d1 := (c.getDelta t1).1
  let c1 := (c.getDelta t1).2
  let d2 := (c1.getDelta t2).1
  let c2 := (c1.getDelta t2).2
  { reportedFPS := jsRound (1 / d1)
    fpsReportCount := 1
    rigAdvanceDelta := d2
    rig := applyTracking vrm tracking
    clock := c2 }

/-- A 128-bin snapshot with every byte at full scale 255. -/
def data255 : List ℕ := List.replicate 128 255

/-! ## Helper lemmas -/

/-- The decimator keeps exactly the multiples of 3 when the frames are
numbered by the counter values they will receive. -/
theorem decimatorRun_range' (n : ℕ) : ∀ c : ℕ,
    decimatorRun c (List.range' (c + 1) n) =
      (List.range' (c + 1) n).filter (fun k => k % 3 == 0) := by
  induction n with
  | zero => intro c; rfl
  | succ n ih =>
      intro c
      have hr : List.range' (c + 1) (n + 1) = (c + 1) :: List.range' (c + 2) n := rfl
      rw [hr]
      by_cases h : (c + 1) % 3 = 0
      · simp only [decimatorRun, if_pos h, List.filter_cons,
          decide_eq_true (show ((c + 1) % 3 == 0) = true by simpa using h)]
        have := ih (c + 1)
        simp only [show c + 1 + 1 = c + 2 from rfl] at this
        simp [h, this]
      · simp only [decimatorRun, if_neg h, List.filter_cons]
        have hb : ((c + 1) % 3 == 0) = false := by simpa using h
        have := ih (c + 1)
        simp only [show c + 1 + 1 = c + 2 from rfl] at this
        simp [hb, this]

/-- Looking up the mouth-open entry of the mapping table. -/
theorem mapToVRMBlendShape_mouthOpen : mapToVRMBlendShape "mouthOpen" = some "aa" := by decide

/-- The mapping table has no entry for `fooBar`. -/
theorem mapToVRMBlendShape_fooBar : mapToVRMBlendShape "fooBar" = none := by decide

/-- Writing an existing channel updates exactly that channel value. -/
theorem setExpressionValue_self (vrm : Rig) (name : String) (v : ℝ)
    (h : name ∈ vrm.channels) :
    (setExpressionValue vrm name v).channelValues name = v := by
  simp [setExpressionValue, h]

/-- A single mapped entry writes its clamped value through the fold of
`applyBlendShapes`. -/
theorem applyBlendShapes_single (vrm : Rig) (name target : String) (v : ℝ)
    (hEM : vrm.hasExpressionManager = true)
    (hmap : mapToVRMBlendShape name = some target)
    (hch : target ∈ vrm.channels) :
    (applyBlendShapes vrm [(name, v)]).channelValues target = max 0 (min 1 v) := by
  simp only [applyBlendShapes, hEM, Bool.true_eq_false, if_false, List.foldl_cons,
    List.foldl_nil, hmap, if_true]
  exact setExpressionValue_self vrm target _ hch

/-- A single unmapped entry leaves the rig untouched. -/
theorem applyBlendShapes_unmapped (vrm : Rig) (name : String) (v : ℝ)
    (hmap : mapToVRMBlendShape name = none) :
    applyBlendShapes vrm [(name, v)] = vrm := by
  by_cases hEM : vrm.hasExpressionManager = false
  · simp [applyBlendShapes, hEM]
  · simp [applyBlendShapes, hEM, hmap]

/-- An inactive sample applied on a render tick leaves the rig unchanged. -/
theorem applyTracking_inactive (vrm : Rig) (d : FaceTrackingData)
    (h : d.isActive = false) : applyTracking vrm (some d) = vrm := by
  simp [applyTracking, h]

/-! ## Claim theorems -/

/-- C3: the Frame Decimator forwards exactly every 3rd frame to the
solver, deterministically: over frames numbered 1..n it forwards
exactly the positions divisible by 3, and for N = 9 it forwards exactly
the 3 frames at positions 3, 6 and 9. -/
theorem C3_decimation :
    (∀ n : ℕ, decimatorRun 0 (List.range' 1 n) =
        (List.range' 1 n).filter (fun k => k % 3 == 0))
    ∧ decimatorRun 0 (List.range' 1 9) = [3, 6, 9]
    ∧ (decimatorRun 0 (List.range' 1 9)).length = 3 := by
  refine ⟨fun n => decimatorRun_range' n 0, by decide, by decide⟩

/-- C6: a solver invocation that throws is caught at the tracking
boundary and degrades to the inactive sample (active = false, empty
weights, zero rotation and position); the emission function is total
(nothing propagates) and the render loop applied to the degraded sample
performs no rig write. -/
theorem C6_solver_error_degrade :
    onResultsEmit true .failure = some inactiveSample
    ∧ inactiveSample.isActive = false
    ∧ inactiveSample.blendShapes = []
    ∧ inactiveSample.rotation = Vec3.zero
    ∧ inactiveSample.position = Vec3.zero
    ∧ (∀ vrm : Rig, applyTracking vrm (some inactiveSample) = vrm) :=
  ⟨rfl, rfl, rfl, rfl, rfl, fun vrm => applyTracking_inactive vrm _ rfl⟩

/-- C8: every sample the tracking producer emits with active = false has
empty expression weights and all-zero rotation and position. -/
theorem C8_inactive_invariant (hasLandmarks : Bool) (outcome : SolveOutcome)
    (d : FaceTrackingData) (hemit : onResultsEmit hasLandmarks outcome = some d)
    (hinactive : d.isActive = false) :
    d.blendShapes = [] ∧ d.rotation = Vec3.zero ∧ d.position = Vec3.zero := by
  cases hasLandmarks with
  | false =>
      simp only [onResultsEmit, Bool.false_eq_true, if_false, Option.some.injEq] at hemit
      subst hemit
      exact ⟨rfl, rfl, rfl⟩
  | true =>
      cases outcome with
      | success face =>
          simp only [onResultsEmit, if_true, Option.some.injEq] at hemit
          subst hemit
          simp [trackingDataOf] at hinactive
      | nullFace =>
          simp [onResultsEmit] at hemit
      | failure =>
          simp only [onResultsEmit, if_true, Option.some.injEq] at hemit
          subst hemit
          exact ⟨rfl, rfl, rfl⟩

/-- Witness for C8 at a concrete emission: a no-landmarks frame. -/
theorem C8_inactive_invariant_witness :
    inactiveSample.blendShapes = [] ∧ inactiveSample.rotation = Vec3.zero
      ∧ inactiveSample.position = Vec3.zero :=
  C8_inactive_invariant false .failure inactiveSample rfl rfl

/-- C7: a source weight name with no entry in the mapping table raises
no error and mutates no rig channel (concretely, a sample containing
fooBar at 0.9 leaves the rig unchanged); writes to channels the rig
does not own and head writes without a head bone node are no-ops. -/
theorem C7_unmapped_noop :
    mapToVRMBlendShape "fooBar" = none
    ∧ (∀ (vrm : Rig) (name : String) (v : ℝ),
        mapToVRMBlendShape name = none → applyBlendShapes vrm [(name, v)] = vrm)
    ∧ applyBlendShapes sampleRig [("fooBar", (0.9 : ℝ))] = sampleRig
    ∧ (∀ (vrm : Rig) (name : String) (v : ℝ),
        name ∉ vrm.channels → setExpressionValue vrm name v = vrm)
    ∧ (∀ (vrm : Rig) (rotation : Vec3),
        vrm.hasHead = false → applyHeadRotation vrm rotation = vrm) := by
  refine ⟨mapToVRMBlendShape_fooBar, applyBlendShapes_unmapped,
    applyBlendShapes_unmapped sampleRig "fooBar" 0.9 mapToVRMBlendShape_fooBar,
    fun vrm name v h => ?_, fun vrm rotation h => ?_⟩
  · simp [setExpressionValue, h]
  · by_cases hh : vrm.hasHumanoid = false
    · simp [applyHeadRotation, hh]
    · simp [applyHeadRotation, hh, h]

/-- Witness for C7 at a concrete unmapped name. -/
theorem C7_unmapped_noop_witness :
    applyBlendShapes sampleRig [("unknownShape", (0.3 : ℝ))] = sampleRig :=
  C7_unmapped_noop.2.1 sampleRig "unknownShape" 0.3 (by decide)

/-- C5: every expression weight written by the Rig Applier is the input
clamped to the unit interval: the written value is
`max 0 (min 1 input)`, an input of 1.5 writes 1 and an input of -0.2
writes 0. -/
theorem C5_clamp :
    (∀ (vrm : Rig) (name target : String) (v : ℝ),
        vrm.hasExpressionManager = true →
        mapToVRMBlendShape name = some target →
        target ∈ vrm.channels →
        (applyBlendShapes vrm [(name, v)]).channelValues target = max 0 (min 1 v))
    ∧ max 0 (min 1 (1.5 : ℝ)) = 1
    ∧ max 0 (min 1 (-0.2 : ℝ)) = 0
    ∧ (applyBlendShapes sampleRig [("mouthOpen", (1.5 : ℝ))]).channelValues "aa" = 1
    ∧ (applyBlendShapes sampleRig [("mouthOpen", (-0.2 : ℝ))]).channelValues "aa" = 0 := by
  have h15 : max 0 (min 1 (1.5 : ℝ)) = 1 := by norm_num
  have hneg : max 0 (min 1 (-0.2 : ℝ)) = 0 := by norm_num
  refine ⟨applyBlendShapes_single, h15, hneg, ?_, ?_⟩
  · rw [applyBlendShapes_single sampleRig "mouthOpen" "aa" 1.5 rfl
      mapToVRMBlendShape_mouthOpen (by decide)]
    exact h15
  · rw [applyBlendShapes_single sampleRig "mouthOpen" "aa" (-0.2) rfl
      mapToVRMBlendShape_mouthOpen (by decide)]
    exact hneg

/-- Witness for C5 at a concrete in-range input. -/
theorem C5_clamp_witness :
    (applyBlendShapes sampleRig [("mouthOpen", (0.3 : ℝ))]).channelValues "aa"
      = max 0 (min 1 (0.3 : ℝ)) :=
  C5_clamp.1 sampleRig "mouthOpen" "aa" 0.3 rfl mapToVRMBlendShape_mouthOpen (by decide)

/-- The end-to-end sample of claim C9: active, mouthOpen at 0.9, head
rotation x = 10 degrees. -/
noncomputable def mouthOpenSample : FaceTrackingData :=
  { isActive := true
    blendShapes := [("mouthOpen", (0.9 : ℝ))]
    rotation := ⟨10, 0, 0⟩
    position := Vec3.zero }

/-- C9: applying the sample with mouthOpen = 0.9 and rotation x = 10
writes target channel aa = 0.9 and head-bone rotation.x =
degToRad (10 * 0.5). -/
theorem C9_end_to_end :
    (applyTracking sampleRig (some mouthOpenSample)).channelValues "aa" = 0.9
    ∧ (applyTracking sampleRig (some mouthOpenSample)).headRotation.x
        = degToRad (10 * 0.5) := by
  constructor
  · have h : (applyTracking sampleRig (some mouthOpenSample)).channelValues "aa"
        = max 0 (min 1 (0.9 : ℝ)) := rfl
    rw [h]; norm_num
  · rfl

/-- C1 as stated is false on the code: the render tick with an inactive
sample leaves the rig entirely unchanged, and the audio lip-sync
consumer writes nothing to the rig either, even while the estimator
emits a nonzero viseme weight (0.8 for viseme A at full-scale input). -/
theorem C1_counterexample :
    (analyzeAudio data255).visemeA = 0.8
    ∧ applyTracking sampleRig (some inactiveSample) = sampleRig
    ∧ lipSyncOnUpdate (analyzeAudio data255) sampleRig = sampleRig
    ∧ sampleRig.channelValues "aa" = 0
    ∧ (0.8 : ℝ) ≠ 0 := by
  have hq : normalizedVolume data255 = 1 := by
    simp only [normalizedVolume, data255, List.sum_replicate, List.length_replicate,
      smul_eq_mul]
    norm_num
  have hv : ((normalizedVolume data255 : ℚ) : ℝ) = 1 := by rw [hq]; norm_num
  have hA : (analyzeAudio data255).visemeA = 0.8 := by
    simp only [analyzeAudio, visemesOfVolume, volumeSmoothed, hv, Real.one_rpow]
    norm_num
  exact ⟨hA, applyTracking_inactive sampleRig _ rfl, rfl, rfl, by norm_num⟩

/-- C1 amended: with an inactive (or absent) tracking sample the render
tick writes no head rotation and no expression channel at all, and the
audio viseme weights are not written to the rig on any tick: their only
consumer returns the rig unchanged. -/
theorem C1_amended :
    (∀ (vrm : Rig) (d : FaceTrackingData), d.isActive = false →
        applyTracking vrm (some d) = vrm)
    ∧ (∀ vrm : Rig, applyTracking vrm none = vrm)
    ∧ (∀ (a : AudioLipSyncData) (vrm : Rig), lipSyncOnUpdate a vrm = vrm) :=
  ⟨applyTracking_inactive, fun _ => rfl, fun _ _ => rfl⟩

/-- Witness for the amended C1 at a concrete inactive sample carrying a
nonzero weight: the flag alone suppresses every write. -/
theorem C1_amended_witness :
    applyTracking sampleRig
      (some { isActive := false, blendShapes := [("mouthOpen", (0.7 : ℝ))],
              rotation := ⟨1, 2, 3⟩, position := Vec3.zero }) = sampleRig :=
  C1_amended.1 sampleRig _ rfl

/-- C2: for every volume v in the unit interval, each viseme weight is
the smoothed volume times its gain when the smoothed volume exceeds the
viseme threshold and 0 otherwise; evaluated at v = 0 (all zero), at
v = 0.5 (all five thresholds exceeded) and at v = 1 (weights equal the
gains). -/
theorem C2_viseme_formula :
    (∀ v : ℝ, 0 ≤ v → v ≤ 1 →
      (visemesOfVolume v).visemeA = (if v ^ (0.7:ℝ) > 0.1 then v ^ (0.7:ℝ) * 0.8 else 0)
      ∧ (visemesOfVolume v).visemeI = (if v ^ (0.7:ℝ) > 0.05 then v ^ (0.7:ℝ) * 0.6 else 0)
      ∧ (visemesOfVolume v).visemeU = (if v ^ (0.7:ℝ) > 0.03 then v ^ (0.7:ℝ) * 0.4 else 0)
      ∧ (visemesOfVolume v).visemeE = (if v ^ (0.7:ℝ) > 0.07 then v ^ (0.7:ℝ) * 0.5 else 0)
      ∧ (visemesOfVolume v).visemeO = (if v ^ (0.7:ℝ) > 0.04 then v ^ (0.7:ℝ) * 0.7 else 0))
    ∧ ((visemesOfVolume 0).visemeA = 0 ∧ (visemesOfVolume 0).visemeI = 0
        ∧ (visemesOfVolume 0).visemeU = 0 ∧ (visemesOfVolume 0).visemeE = 0
        ∧ (visemesOfVolume 0).visemeO = 0)
    ∧ ((visemesOfVolume 0.5).visemeA = (0.5:ℝ) ^ (0.7:ℝ) * 0.8
        ∧ (visemesOfVolume 0.5).visemeI = (0.5:ℝ) ^ (0.7:ℝ) * 0.6
        ∧ (visemesOfVolume 0.5).visemeU = (0.5:ℝ) ^ (0.7:ℝ) * 0.4
        ∧ (visemesOfVolume 0.5).visemeE = (0.5:ℝ) ^ (0.7:ℝ) * 0.5
        ∧ (visemesOfVolume 0.5).visemeO = (0.5:ℝ) ^ (0.7:ℝ) * 0.7)
    ∧ ((visemesOfVolume 1).visemeA = 0.8 ∧ (visemesOfVolume 1).visemeI = 0.6
        ∧ (visemesOfVolume 1).visemeU = 0.4 ∧ (visemesOfVolume 1).visemeE = 0.5
        ∧ (visemesOfVolume 1).visemeO = 0.7) := by
  have hzero : (0:ℝ) ^ (0.7:ℝ) = 0 := Real.zero_rpow (by norm_num)
  have hone : (1:ℝ) ^ (0.7:ℝ) = 1 := Real.one_rpow _
  have hmono : (0.5:ℝ) ^ (1:ℝ) ≤ (0.5:ℝ) ^ (0.7:ℝ) :=
    Real.rpow_le_rpow_of_exponent_ge (by norm_num) (by norm_num) (by norm_num)
  have hhalf : (0.5:ℝ) ≤ (0.5:ℝ) ^ (0.7:ℝ) := by rwa [Real.rpow_one] at hmono
  refine ⟨fun v _ _ => ⟨rfl, rfl, rfl, rfl, rfl⟩, ?_, ?_, ?_⟩
  · refine ⟨?_, ?_, ?_, ?_, ?_⟩ <;>
      · simp only [visemesOfVolume, volumeSmoothed, hzero]
        norm_num
  · refine ⟨?_, ?_, ?_, ?_, ?_⟩ <;>
      simp only [visemesOfVolume, volumeSmoothed]
    · rw [if_pos (by linarith : (0.1:ℝ) < (0.5:ℝ) ^ (0.7:ℝ))]
    · rw [if_pos (by linarith : (0.05:ℝ) < (0.5:ℝ) ^ (0.7:ℝ))]
    · rw [if_pos (by linarith : (0.03:ℝ) < (0.5:ℝ) ^ (0.7:ℝ))]
    · rw [if_pos (by linarith : (0.07:ℝ) < (0.5:ℝ) ^ (0.7:ℝ))]
    · rw [if_pos (by linarith : (0.04:ℝ) < (0.5:ℝ) ^ (0.7:ℝ))]
  · refine ⟨?_, ?_, ?_, ?_, ?_⟩ <;>
      · simp only [visemesOfVolume, volumeSmoothed, hone]
        norm_num

/-- Witness for C2 at v = 1: viseme A equals its formula there. -/
theorem C2_viseme_formula_witness :
    (visemesOfVolume 1).visemeA
      = (if (1:ℝ) ^ (0.7:ℝ) > 0.1 then (1:ℝ) ^ (0.7:ℝ) * 0.8 else 0) :=
  (C2_viseme_formula.1 1 (by norm_num) (by norm_num)).1

/-- C10: for every non-empty byte snapshot with entries at most 255, the
emitted volume lies in the unit interval and each viseme weight lies
between 0 and its gain factor, although no explicit clamp is applied. -/
theorem C10_viseme_bounds (data : List ℕ) (hne : data ≠ [])
    (hbytes : ∀ b ∈ data, b ≤ 255) :
    (0 ≤ (analyzeAudio data).volume ∧ (analyzeAudio data).volume ≤ 1)
    ∧ (0 ≤ (analyzeAudio data).visemeA ∧ (analyzeAudio data).visemeA ≤ 0.8)
    ∧ (0 ≤ (analyzeAudio data).visemeI ∧ (analyzeAudio data).visemeI ≤ 0.6)
    ∧ (0 ≤ (analyzeAudio data).visemeU ∧ (analyzeAudio data).visemeU ≤ 0.4)
    ∧ (0 ≤ (analyzeAudio data).visemeE ∧ (analyzeAudio data).visemeE ≤ 0.5)
    ∧ (0 ≤ (analyzeAudio data).visemeO ∧ (analyzeAudio data).visemeO ≤ 0.7) := by
  have hlen : 0 < data.length := List.length_pos.mpr hne
  have hsum : data.sum ≤ data.length * 255 := by
    have := List.sum_le_card_nsmul data 255 hbytes
    simpa [smul_eq_mul] using this
  have hq0 : (0:ℚ) ≤ normalizedVolume data := by
    unfold normalizedVolume
    positivity
  have hq1 : normalizedVolume data ≤ 1 := by
    unfold normalizedVolume
    have hcast : (data.sum : ℚ) ≤ (data.length : ℚ) * 255 := by exact_mod_cast hsum
    have hlq : (0:ℚ) < (data.length : ℚ) := by exact_mod_cast hlen
    rw [div_div, div_le_one (by positivity)]
    linarith
  have hv0 : (0:ℝ) ≤ ((normalizedVolume data : ℚ) : ℝ) := by exact_mod_cast hq0
  have hv1 : ((normalizedVolume data : ℚ) : ℝ) ≤ 1 := by exact_mod_cast hq1
  have hvs0 : 0 ≤ ((normalizedVolume data : ℚ) : ℝ) ^ (0.7:ℝ) := Real.rpow_nonneg hv0 _
  have hvs1 : ((normalizedVolume data : ℚ) : ℝ) ^ (0.7:ℝ) ≤ 1 :=
    Real.rpow_le_one hv0 hv1 (by norm_num)
  have hfield : ∀ g : ℝ, 0 ≤ g → ∀ thr : ℝ,
      0 ≤ (if ((normalizedVolume data : ℚ) : ℝ) ^ (0.7:ℝ) > thr
            then ((normalizedVolume data : ℚ) : ℝ) ^ (0.7:ℝ) * g else 0)
      ∧ (if ((normalizedVolume data : ℚ) : ℝ) ^ (0.7:ℝ) > thr
            then ((normalizedVolume data : ℚ) : ℝ) ^ (0.7:ℝ) * g else 0) ≤ g := by
    intro g hg thr
    split_ifs with h
    · exact ⟨mul_nonneg hvs0 hg, mul_le_of_le_one_left hg hvs1⟩
    · exact ⟨le_refl 0, hg⟩
  exact ⟨⟨hvs0, hvs1⟩,
    hfield 0.8 (by norm_num) 0.1,
    hfield 0.6 (by norm_num) 0.05,
    hfield 0.4 (by norm_num) 0.03,
    hfield 0.5 (by norm_num) 0.07,
    hfield 0.7 (by norm_num) 0.04⟩

/-- Witness for C10 at a concrete two-bin snapshot. -/
theorem C10_viseme_bounds_witness :
    (0 ≤ (analyzeAudio [255, 0]).volume ∧ (analyzeAudio [255, 0]).volume ≤ 1)
    ∧ (0 ≤ (analyzeAudio [255, 0]).visemeA ∧ (analyzeAudio [255, 0]).visemeA ≤ 0.8)
    ∧ (0 ≤ (analyzeAudio [255, 0]).visemeI ∧ (analyzeAudio [255, 0]).visemeI ≤ 0.6)
    ∧ (0 ≤ (analyzeAudio [255, 0]).visemeU ∧ (analyzeAudio [255, 0]).visemeU ≤ 0.4)
    ∧ (0 ≤ (analyzeAudio [255, 0]).visemeE ∧ (analyzeAudio [255, 0]).visemeE ≤ 0.5)
    ∧ (0 ≤ (analyzeAudio [255, 0]).visemeO ∧ (analyzeAudio [255, 0]).visemeO ≤ 0.7) :=
  C10_viseme_bounds [255, 0] (by decide) (by decide)

/-- C4: the code calls getDelta twice per tick, so the rig animation is
advanced by the time between the two calls of the same tick instead of
the elapsed time since the last tick, while the FPS callback (invoked
once) receives the rounded reciprocal of the first delta; evaluated at
the failing input where the previous tick ended at time 0 and the
current tick runs at time 1, the rig is advanced by 0, not by 1. -/
theorem C4_double_getDelta_eval :
    (∀ (c : Clock) (vrm : Rig) (tracking : Option FaceTrackingData) (t1 t2 : ℝ),
        (renderTick c vrm tracking t1 t2).rigAdvanceDelta = t2 - t1
        ∧ (renderTick c vrm tracking t1 t2).reportedFPS = jsRound (1 / (t1 - c.last))
        ∧ (renderTick c vrm tracking t1 t2).fpsReportCount = 1)
    ∧ (renderTick ⟨0⟩ sampleRig none 1 1).rigAdvanceDelta = 0
    ∧ (renderTick ⟨0⟩ sampleRig none 1 1).reportedFPS = 1
    ∧ ((1:ℝ) - 0 = 1) ∧ ((0:ℝ) ≠ 1) := by
  refine ⟨fun c vrm tracking t1 t2 => ⟨rfl, rfl, rfl⟩, ?_, ?_, by norm_num, by norm_num⟩
  · show (1:ℝ) - 1 = 0
    norm_num
  · show jsRound (1 / ((1:ℝ) - 0)) = 1
    unfold jsRound
    have h32 : (1:ℝ) / ((1:ℝ) - 0) + 1 / 2 = 3 / 2 := by norm_num
    rw [h32]
    rw [Int.floor_eq_iff]
    constructor <;> norm_num

end WeV
